import Mathlib

/-!
A verification development for `bin/ch_fuse.c`: the SquashFUSE mount helper of
the charliecloud container tool.  The C source is embedded shallowly: external
collaborators (stat, fopen, fread, opendir, mkdir, sqfs_ll_open, sqfs_ll_mount,
fuse_set_signal_handlers, fork, fuse_session_loop) are modelled by explicit
outcome parameters, fatal-error macros (`Te`, `Ze`, `FATAL`) by an error-result
constructor carrying the diagnostic, and the process-wide `struct squash sq`
global by explicit state passing.
-/

namespace ChFuse

/-! ### The process-wide mount-session record (`struct squash sq`) -/

/-- `struct squash`: `mountpt` (NULL or a string), whether `chan.session` is
non-NULL, and whether `ll` (the opened squashfs image handle) is non-NULL. -/
structure Squash where
  mountpt : Option String
  session : Bool
  ll : Bool
  deriving DecidableEq, Repr

/-- Zero-initialized process-wide state, as C gives to the global `sq`. -/
def sqInit : Squash := ⟨none, false, false⟩

/-! ### Image classifier (`imgdir_p`) -/

/-- The file type reported by `stat`: directory, regular file, or other. -/
inductive FType
  | dir
  | reg
  | other
  deriving DecidableEq, Repr

/-- What `stat` reports for a path: its type and (for the classifier) the
byte content of the file. -/
structure FileInfo where
  ftype : FType
  content : List Nat
  deriving DecidableEq, Repr

/-- The fatal diagnostics `imgdir_p` can raise via `Te`, each naming the
offending path, mirroring the format strings in the source. -/
inductive ImgErr
  | cantStat (path : String)
  | cantOpen (path : String)
  | cantRead (path : String)
  deriving DecidableEq, Repr

/-- Result of the classifier: a return value (1 sqfs, 0 dir, -1 other) or a
fatal termination with a diagnostic. -/
inductive ImgResult
  | ok (r : Int)
  | fatal (e : ImgErr)
  deriving DecidableEq, Repr

/-- Mutable process state the classifier can touch: the count of open stdio
handles and the global `sq` record. -/
structure ProcState where
  openHandles : Nat
  sq : Squash
  deriving DecidableEq, Repr

/-- Outcomes of the external calls `imgdir_p` makes on one path: the `stat`
result, whether `fopen` succeeds, and the byte that happens to sit on the
stack immediately after the 4-byte `magic` buffer (read out of bounds by
`strcmp`, since `magic` carries no NUL terminator). -/
structure ClassEnv where
  statR : Option FileInfo
  fopenOk : Bool
  stackJunk : Nat
  deriving DecidableEq, Repr

/-- C `strcmp(a, b) == 0`: compare byte by byte, stopping at the first
difference or at a common NUL.  The lists supply as much memory as the
comparison can consume. -/
def strcmpEq : List Nat → List Nat → Bool
  | a :: as, b :: bs => a == b && (a == 0 || strcmpEq as bs)
  | [], [] => true
  | _, _ => false

/-- The string literal `"hsqs"` as C memory: the four magic bytes followed by
its NUL terminator. -/
def hsqsLit : List Nat := [104, 115, 113, 115, 0]

/-- `imgdir_p(path)`: classify a path as squashfs image (1), directory (0) or
other (-1), fatally erroring on stat/open/read failure.  Mirrors the source:
stat; directory → 0; not a regular file → -1; fopen (never fclosed);
fread 4 bytes (succeeds iff the file has at least 4); then
`strcmp(magic, "hsqs")` where `magic` is the 4 bytes read followed by the
out-of-bounds stack byte. -/
def imgdir_p (path : String) (env : ClassEnv) (st : ProcState) :
    ImgResult × ProcState :=
  match env.statR with
  | none => (.fatal (.cantStat path), st)
  | some fi =>
    if fi.ftype = .dir then (.ok 0, st)
    else if fi.ftype ≠ .reg then (.ok (-1), st)
    else if env.fopenOk = false then (.fatal (.cantOpen path), st)
    else
      let st1 : ProcState := { st with openHandles := st.openHandles + 1 }
      if fi.content.length < 4 then (.fatal (.cantRead path), st1)
      else if strcmpEq (fi.content.take 4 ++ [env.stackJunk]) hsqsLit then
        (.ok 1, st1)
      else (.ok (-1), st1)

/-! ### Mount session manager (`sq_mount`) -/

/-- The fatal diagnostics `sq_mount` can raise, one per format string in the
source. -/
inductive MErr
  | emptyMountpt
  | failedOpen (path : String)
  | failedCreate (dir : String)
  | failedSession
  | failedMount
  | cantSetHandlers
  | failedFork
  | failedLoop
  deriving DecidableEq, Repr

/-- The result of `fork()`: failure (negative), the child branch (zero), or
the parent branch (positive). -/
inductive ForkRes
  | fail
  | child
  | parent
  deriving DecidableEq, Repr

/-- What happens to the parent inside `fuse_session_loop`: either it blocks
until the SIGCHLD handler `sq_end` terminates the process (the collaborator
contract: the loop suspends until worker exit), or the loop call returns a
status code. -/
inductive LoopOut
  | blockedThenTerminated
  | returns (code : Int)
  deriving DecidableEq, Repr

/-- Outcomes of the external calls `sq_mount` makes: whether `sqfs_ll_open`
yields a handle, whether the mount directory exists and is openable with
`opendir`, whether `mkdir` would succeed on a nonexistent path, whether
`sqfs_ll_mount` returns `SQFS_OK`, whether `chan.session` is non-NULL after
that call, whether `fuse_set_signal_handlers` succeeds, the `fork` result and
the service-loop behaviour. -/
structure MountEnv where
  openOk : Bool
  dirExists : Bool
  dirReadable : Bool
  mkdirOk : Bool
  mountOk : Bool
  sessionAfterMount : Bool
  setHandlersOk : Bool
  forkRes : ForkRes
  loopOut : LoopOut
  deriving DecidableEq, Repr

/-- Observable events of one `sq_mount` run, in program order. -/
inductive MEv
  | infoMountpt (s : String)
  | openImage (path : String)
  | openDirCheck (dir : String)
  | mkdirCall (dir : String)
  | mountCall (dir : String)
  | sigchldHandlerSet
  | setSigHandlers
  | forkCall
  | loopEntered
  deriving DecidableEq, Repr

/-- How one process leaves `sq_mount`: a fatal diagnostic, a normal return
carrying the mount point, or termination by the SIGCHLD-driven `exit(0)`
while blocked in the service loop. -/
inductive MOut
  | fatal (e : MErr)
  | ret (mountpt : String)
  | terminated
  deriving DecidableEq, Repr

/-- FUSE argument verbosity from the source: `-d` debug (2 args) only when
the global verbosity exceeds 2, else the single default argument. -/
def fuse_argc (verbose : Int) : Int := if verbose > 2 then 2 else 1

/-- The tail of `sq_mount` from the `sqfs_ll_mount` call on: mount, then the
two-cause error split inspecting `chan.session`, then `signal(SIGCHLD,
sq_end)`, `fuse_set_signal_handlers`, `fork`, and the loop/return split. -/
def sq_mount_from_mount (mountdir : String) (env : MountEnv) (s : Squash)
    (evs : List MEv) : MOut × Squash × List MEv :=
  let evs1 := evs ++ [.mountCall mountdir]
  if env.mountOk = false then
    let s1 : Squash := { s with session := env.sessionAfterMount }
    if env.sessionAfterMount = false then (.fatal .failedSession, s1, evs1)
    else (.fatal .failedMount, s1, evs1)
  else
    let s1 : Squash := { s with session := true }
    let evs2 := evs1 ++ [.sigchldHandlerSet, .setSigHandlers]
    if env.setHandlersOk = false then (.fatal .cantSetHandlers, s1, evs2)
    else
      let evs3 := evs2 ++ [.forkCall]
      match env.forkRes with
      | .fail => (.fatal .failedFork, s1, evs3)
      | .child => (.ret (s1.mountpt.getD ""), s1, evs3)
      | .parent =>
        let evs4 := evs3 ++ [.loopEntered]
        match env.loopOut with
        | .blockedThenTerminated => (.terminated, s1, evs4)
        | .returns code =>
          if code < 0 then (.fatal .failedLoop, s1, evs4)
          else (.ret (s1.mountpt.getD ""), s1, evs4)

/-- `sq_mount(mountdir, filepath)`: reject an empty mount point, record it in
`sq` and log it, open the image (fatal on failure), probe the mount directory
with `opendir` and `mkdir` it when the probe fails (fatal when `mkdir` fails,
which it must when the directory already exists), then hand over to the
mount/fork tail. -/
def sq_mount (mountdir filepath : String) (env : MountEnv) (s0 : Squash) :
    MOut × Squash × List MEv :=
  if mountdir = "" then (.fatal .emptyMountpt, s0, [])
  else
    let s1 : Squash := { s0 with mountpt := some mountdir }
    let evs1 : List MEv := [.infoMountpt mountdir, .openImage filepath]
    if env.openOk = false then
      (.fatal (.failedOpen filepath), { s1 with ll := false }, evs1)
    else
      let s2 : Squash := { s1 with ll := true }
      let evs2 := evs1 ++ [.openDirCheck mountdir]
      if env.dirExists && env.dirReadable then
        sq_mount_from_mount mountdir env s2 evs2
      else
        let evs3 := evs2 ++ [.mkdirCall mountdir]
        if !env.dirExists && env.mkdirOk then
          sq_mount_from_mount mountdir env s2 evs3
        else (.fatal (.failedCreate mountdir), s2, evs3)

/-- The mount-directory phase succeeds: either `opendir` succeeds, or the
directory does not exist and `mkdir` creates it. -/
def dirPhaseOk (env : MountEnv) : Bool :=
  env.dirExists && env.dirReadable || !env.dirExists && env.mkdirOk

/-! ### Lifecycle coordinator (`sq_end`, `sq_clean`) -/

/-- Teardown-relevant events of the service process. -/
inductive TEv
  | removeSigHandlers
  | destroyImage
  | unmountFS
  | processEnd
  deriving DecidableEq, Repr

/-- The body of `sq_clean`, in source order: remove the FUSE signal handlers
from the session, destroy the image handle, unmount the mount point. -/
def sq_clean_events : List TEv := [.removeSigHandlers, .destroyImage, .unmountFS]

/-- The two ways the service process can come to exit: the SIGCHLD delivered
on worker termination (handled by `sq_end`, which calls `exit(0)`), or a
direct process exit. -/
inductive ExitTrigger
  | sigchld
  | directExit
  deriving DecidableEq, Repr

/-- The service process as the lifecycle coordinator sees it: whether it is
still alive and the teardown events it has emitted. -/
structure Proc where
  alive : Bool
  trace : List TEv
  deriving DecidableEq, Repr

/-- Modelled from the spec: the registration `atexit(sq_clean)` lives outside
this file (in the caller), and per the spec the cleanup handler "is guaranteed
to run once on normal or signal-triggered exit".  A live process that exits
runs `sq_clean` once and then terminates; a process that has already exited
does nothing further. -/
def processExit (p : Proc) : Proc :=
  if p.alive then ⟨false, p.trace ++ sq_clean_events ++ [.processEnd]⟩ else p

/-- `sq_end`: the SIGCHLD handler just calls `exit(0)`, which fires the
registered cleanup. -/
def sq_end (p : Proc) : Proc := processExit p

/-- Deliver one exit trigger to the service process. -/
def handleTrigger (p : Proc) : ExitTrigger → Proc
  | .sigchld => sq_end p
  | .directExit => processExit p

/-- Deliver a whole sequence of exit triggers in order. -/
def runTriggers (p : Proc) (ts : List ExitTrigger) : Proc :=
  ts.foldl handleTrigger p

end ChFuse

namespace ChFuse

/-! ### Classifier theorems -/

/-- C8: for every path whose stat reports a directory, `imgdir_p` returns the
directory classification (0) immediately, with the process state unchanged
(nothing opened or read), independent of the file content. -/
theorem imgdir_p_dir (path : String) (env : ClassEnv) (st : ProcState)
    (fi : FileInfo) (hst : env.statR = some fi) (hdir : fi.ftype = .dir) :
    imgdir_p path env st = (.ok 0, st) := by
  simp [imgdir_p, hst, hdir]

/-- Witness for C8: a concrete directory classifies as 0 with state intact. -/
theorem imgdir_p_dir_witness :
    imgdir_p "/tmp/realdir" ⟨some ⟨.dir, [1, 2]⟩, true, 0⟩ ⟨0, sqInit⟩ =
      (.ok 0, ⟨0, sqInit⟩) :=
  imgdir_p_dir "/tmp/realdir" ⟨some ⟨.dir, [1, 2]⟩, true, 0⟩ ⟨0, sqInit⟩
    ⟨.dir, [1, 2]⟩ rfl rfl

/-- C7: a regular file shorter than 4 bytes makes the 4-byte `fread` fail, so
`imgdir_p` terminates fatally with the read diagnostic naming the path — it
never returns the "other" classification for such a file. -/
theorem imgdir_p_short_read (path : String) (env : ClassEnv) (st : ProcState)
    (fi : FileInfo) (hst : env.statR = some fi) (hreg : fi.ftype = .reg)
    (hopen : env.fopenOk = true) (hshort : fi.content.length < 4) :
    (imgdir_p path env st).1 = .fatal (.cantRead path) := by
  simp [imgdir_p, hst, hreg, hopen, hshort]

/-- Witness for C7: a 2-byte regular file dies with the read error. -/
theorem imgdir_p_short_read_witness :
    (imgdir_p "/tmp/tiny" ⟨some ⟨.reg, [104, 115]⟩, true, 0⟩ ⟨0, sqInit⟩).1 =
      .fatal (.cantRead "/tmp/tiny") :=
  imgdir_p_short_read "/tmp/tiny" ⟨some ⟨.reg, [104, 115]⟩, true, 0⟩
    ⟨0, sqInit⟩ ⟨.reg, [104, 115]⟩ rfl rfl rfl (by decide)

/-- C3: the code compares the magic with `strcmp` on a buffer that carries no
NUL terminator, so the comparison also reads the out-of-bounds byte after
`magic[3]`.  At a regular file whose first 4 bytes are exactly
`h`,`s`,`q`,`s`, the classifier returns -1 ("other") whenever that stack byte
is nonzero, and 1 ("archive-image") only when it happens to be zero —
contradicting the claim that the first 4 bytes alone decide. -/
theorem imgdir_p_strcmp_overread :
    (imgdir_p "/tmp/image.sqfs"
        ⟨some ⟨.reg, [104, 115, 113, 115]⟩, true, 1⟩ ⟨0, sqInit⟩).1 =
      .ok (-1) ∧
    (imgdir_p "/tmp/image.sqfs"
        ⟨some ⟨.reg, [104, 115, 113, 115]⟩, true, 0⟩ ⟨0, sqInit⟩).1 =
      .ok 1 := by
  constructor <;> decide

/-- C9 counterexample: the classifier opens the file but never closes it —
after a concrete regular-file classification the open-handle count has grown
from 0 to 1, refuting "opens a file handle and closes it again before
returning". -/
theorem imgdir_p_leaks_handle :
    ((imgdir_p "/tmp/image.sqfs"
        ⟨some ⟨.reg, [0, 0, 0, 0]⟩, true, 7⟩ ⟨0, sqInit⟩).2.openHandles = 1) ∧
    ¬ ((imgdir_p "/tmp/image.sqfs"
        ⟨some ⟨.reg, [0, 0, 0, 0]⟩, true, 7⟩ ⟨0, sqInit⟩).2.openHandles = 0) := by
  constructor <;> decide

/-- C9 (amended): the classifier never mutates the global `sq` record, and its
only side effect on the regular-file path is to open one file handle, which is
still open when it returns (the source has no `fclose`). -/
theorem imgdir_p_frame :
    (∀ (path : String) (env : ClassEnv) (st : ProcState),
      (imgdir_p path env st).2.sq = st.sq) ∧
    (∀ (path : String) (env : ClassEnv) (st : ProcState) (fi : FileInfo),
      env.statR = some fi → fi.ftype = .reg → env.fopenOk = true →
      (imgdir_p path env st).2 = { st with openHandles := st.openHandles + 1 }) := by
  constructor
  · intro path env st
    unfold imgdir_p
    cases henv : env.statR with
    | none => rfl
    | some fi =>
      dsimp only
      split
      · rfl
      · split
        · rfl
        · split
          · rfl
          · split
            · rfl
            · split <;> rfl
  · intro path env st fi hst hreg hopen
    simp [imgdir_p, hst, hreg, hopen]
    split
    · rfl
    · split <;> rfl

/-- Witness for C9 (amended): on a concrete regular file the state after is
exactly the state before with one more open handle, `sq` untouched. -/
theorem imgdir_p_frame_witness :
    (imgdir_p "/a" ⟨some ⟨.reg, [104, 115, 113, 115]⟩, true, 0⟩
        ⟨0, sqInit⟩).2 = ⟨1, sqInit⟩ :=
  imgdir_p_frame.2 "/a" ⟨some ⟨.reg, [104, 115, 113, 115]⟩, true, 0⟩
    ⟨0, sqInit⟩ ⟨.reg, [104, 115, 113, 115]⟩ rfl rfl rfl

/-! ### Mount theorems -/

/-- C5: mounting with an empty mount-directory string fails fatally with the
configuration diagnostic before anything happens: the `sq` record is exactly
the initial one and the event trace is empty (no image opened, no directory
probed or created, no mount attempted). -/
theorem sq_mount_empty_fatal (filepath : String) (env : MountEnv) (s0 : Squash) :
    sq_mount "" filepath env s0 = (.fatal .emptyMountpt, s0, []) := by
  simp [sq_mount]

/-- C6: when `sqfs_ll_open` fails, `sq_mount` dies with the open diagnostic
naming the image path, and the trace stops right after the open attempt: the
mount directory is never probed or created and the session/mount step is
never reached. -/
theorem sq_mount_open_fail (mountdir filepath : String) (env : MountEnv)
    (s0 : Squash) (hne : mountdir ≠ "") (hopen : env.openOk = false) :
    sq_mount mountdir filepath env s0 =
      (.fatal (.failedOpen filepath),
       { s0 with mountpt := some mountdir, ll := false },
       [.infoMountpt mountdir, .openImage filepath]) := by
  simp [sq_mount, hne, hopen]

/-- Witness for C6: a concrete run with a failing image open. -/
theorem sq_mount_open_fail_witness :
    sq_mount "/mnt" "/img.sqfs"
        ⟨false, false, false, false, false, false, false, .fail, .returns 0⟩
        sqInit =
      (.fatal (.failedOpen "/img.sqfs"), ⟨some "/mnt", false, false⟩,
       [.infoMountpt "/mnt", .openImage "/img.sqfs"]) :=
  sq_mount_open_fail "/mnt" "/img.sqfs"
    ⟨false, false, false, false, false, false, false, .fail, .returns 0⟩
    sqInit (by decide) rfl

/-- C10: the existence probe is an `opendir` call, so a mount directory that
exists but cannot be opened for reading still sends the code into `mkdir`,
which fails on the existing path, and the run dies with the
directory-creation diagnostic — the `mkdirCall` event is in the trace even
though the directory exists. -/
theorem sq_mount_unreadable_dir (mountdir filepath : String) (env : MountEnv)
    (s0 : Squash) (hne : mountdir ≠ "") (hopen : env.openOk = true)
    (hex : env.dirExists = true) (hrd : env.dirReadable = false) :
    sq_mount mountdir filepath env s0 =
      (.fatal (.failedCreate mountdir),
       { s0 with mountpt := some mountdir, ll := true },
       [.infoMountpt mountdir, .openImage filepath, .openDirCheck mountdir,
        .mkdirCall mountdir]) := by
  simp [sq_mount, hne, hopen, hex, hrd]

/-- Witness for C10: a concrete run against an existing, unreadable mount
directory. -/
theorem sq_mount_unreadable_dir_witness :
    sq_mount "/mnt" "/img.sqfs"
        ⟨true, true, false, true, true, true, true, .child,
         .blockedThenTerminated⟩ sqInit =
      (.fatal (.failedCreate "/mnt"), ⟨some "/mnt", false, true⟩,
       [.infoMountpt "/mnt", .openImage "/img.sqfs", .openDirCheck "/mnt",
        .mkdirCall "/mnt"]) :=
  sq_mount_unreadable_dir "/mnt" "/img.sqfs"
    ⟨true, true, false, true, true, true, true, .child, .blockedThenTerminated⟩
    sqInit (by decide) rfl rfl rfl

/-- C4: when `sqfs_ll_mount` fails, the fatal diagnostic is chosen by
inspecting `chan.session` after the failed call: NULL session means the
session-creation diagnostic, a non-NULL session means the mount diagnostic. -/
theorem sq_mount_two_failure_causes (mountdir filepath : String)
    (env : MountEnv) (s0 : Squash) (hne : mountdir ≠ "")
    (hopen : env.openOk = true) (hdir : dirPhaseOk env = true)
    (hmnt : env.mountOk = false) :
    (sq_mount mountdir filepath env s0).1 =
      (if env.sessionAfterMount = false then MOut.fatal .failedSession
       else MOut.fatal .failedMount) := by
  unfold dirPhaseOk at hdir
  rcases (Bool.or_eq_true _ _).mp hdir with h1 | h2
  · cases hs : env.sessionAfterMount <;>
      simp [sq_mount, sq_mount_from_mount, hne, hopen, h1, hmnt, hs]
  · simp only [Bool.and_eq_true, Bool.not_eq_true'] at h2
    cases hs : env.sessionAfterMount <;>
      simp [sq_mount, sq_mount_from_mount, hne, hopen, h2.1, h2.2, hmnt, hs]

/-- Witness for C4: with a failed mount and no session object the run dies
with the session-creation diagnostic. -/
theorem sq_mount_two_failure_causes_witness :
    (sq_mount "/mnt" "/img.sqfs"
        ⟨true, true, true, true, false, false, true, .child,
         .blockedThenTerminated⟩ sqInit).1 = .fatal .failedSession :=
  sq_mount_two_failure_causes "/mnt" "/img.sqfs"
    ⟨true, true, true, true, false, false, true, .child, .blockedThenTerminated⟩
    sqInit (by decide) rfl rfl rfl

/-- C2: after a successful setup, the fork splits the run: the child (worker)
returns from `sq_mount` with exactly the requested mount point, while the
parent (service) blocks in the service loop and — under the collaborator
contract that the loop suspends until the worker-exit trigger — is terminated
rather than returning. -/
theorem sq_mount_fork_split (mountdir filepath : String) (env : MountEnv)
    (s0 : Squash) (hne : mountdir ≠ "") (hopen : env.openOk = true)
    (hdir : dirPhaseOk env = true) (hmnt : env.mountOk = true)
    (hsig : env.setHandlersOk = true)
    (hloop : env.loopOut = .blockedThenTerminated) :
    (sq_mount mountdir filepath { env with forkRes := .child } s0).1 =
      .ret mountdir ∧
    (sq_mount mountdir filepath { env with forkRes := .parent } s0).1 =
      .terminated := by
  unfold dirPhaseOk at hdir
  rcases (Bool.or_eq_true _ _).mp hdir with h1 | h2
  · constructor <;>
      simp [sq_mount, sq_mount_from_mount, hne, hopen, h1, hmnt, hsig, hloop]
  · simp only [Bool.and_eq_true, Bool.not_eq_true'] at h2
    constructor <;>
      simp [sq_mount, sq_mount_from_mount, hne, hopen, h2.1, h2.2, hmnt, hsig,
        hloop]

/-- Witness for C2: a concrete successful setup, instantiated at both fork
outcomes. -/
theorem sq_mount_fork_split_witness :
    (sq_mount "/mnt" "/img.sqfs"
        ⟨true, true, true, true, true, true, true, .child,
         .blockedThenTerminated⟩ sqInit).1 = .ret "/mnt" ∧
    (sq_mount "/mnt" "/img.sqfs"
        ⟨true, true, true, true, true, true, true, .parent,
         .blockedThenTerminated⟩ sqInit).1 = .terminated :=
  sq_mount_fork_split "/mnt" "/img.sqfs"
    ⟨true, true, true, true, true, true, true, .child, .blockedThenTerminated⟩
    sqInit (by decide) rfl rfl rfl rfl rfl

/-! ### Lifecycle theorems -/

/-- A process that has already exited absorbs every further trigger. -/
theorem runTriggers_dead :
    ∀ (ts : List ExitTrigger) (p : Proc), p.alive = false → runTriggers p ts = p
  | [], _, _ => rfl
  | t :: ts, p, h => by
    have hp : handleTrigger p t = p := by
      cases t <;> simp [handleTrigger, sq_end, processExit, h]
    show runTriggers (handleTrigger p t) ts = p
    rw [hp]
    exact runTriggers_dead ts p h

/-- C1: whatever nonempty sequence of exit triggers hits the live service
process — SIGCHLD from the worker, a direct exit, or both — the teardown
trace is exactly one run of `sq_clean` in source order (remove the FUSE
signal handlers, destroy the image handle, unmount) followed by process end:
teardown runs exactly once, with no double destroy and no double unmount. -/
theorem teardown_exactly_once (ts : List ExitTrigger) (hne : ts ≠ []) :
    (runTriggers ⟨true, []⟩ ts).trace =
      [.removeSigHandlers, .destroyImage, .unmountFS, .processEnd] := by
  cases ts with
  | nil => exact absurd rfl hne
  | cons t ts =>
    have h1 : handleTrigger ⟨true, []⟩ t =
        ⟨false, [.removeSigHandlers, .destroyImage, .unmountFS, .processEnd]⟩ := by
      cases t <;> rfl
    show (runTriggers (handleTrigger ⟨true, []⟩ t) ts).trace = _
    rw [h1, runTriggers_dead ts _ rfl]

/-- Witness for C1: both the worker-termination trigger and a direct exit
fire, yet destroy and unmount each appear once, in order. -/
theorem teardown_exactly_once_witness :
    (runTriggers ⟨true, []⟩ [.sigchld, .directExit]).trace =
      [.removeSigHandlers, .destroyImage, .unmountFS, .processEnd] :=
  teardown_exactly_once [.sigchld, .directExit] (by decide)

end ChFuse
